import Mathlib

/-!
Shallow embedding of the Label Layout & Rendering Engine
(`backend/label_generator.py`, class `AdvancedLabelGenerator`) together with
the request flow of `backend/main.py`.

Conventions of the embedding:
* ReportLab page-space lengths (points) are modelled as exact rationals;
  `inch = 72` points, `letter = (612, 792)`, `a4 = (210mm, 297mm)` with
  `mm = 360/127` points.
* The document sink (ReportLab canvas) is modelled as a trace of `SinkEvent`s
  emitted in drawing order; `showPage` is the page break.
* The glyph provider (code128 / QR widget) is an external collaborator and is
  modelled by a predicate `encodes : String → Bool`; a `false` answer is the
  provider raising an encoding error for that formatted string, which the
  generator does not catch, so generation aborts with `Except.error` carrying
  the offending formatted value.
* Python `//` on possibly negative integers is floor division, `Int.fdiv`.
* The Python fields `prefix` / `suffix` are named `pfx` / `sfx` here.
-/

def inch : ℚ := 72

/-- ReportLab `letter` page size in points: (width, height). -/
def letter : ℚ × ℚ := (612, 792)

/-- ReportLab `A4` page size in points: `(210 * mm, 297 * mm)` with
`mm = 72 / 25.4 = 360/127`. -/
def a4 : ℚ × ℚ := (75600 / 127, 106920 / 127)

/-- Geometry of one sheet preset, the values stored in `LABEL_FORMATS`. -/
structure SheetFormat where
  name : String
  label_width : ℚ
  label_height : ℚ
  labels_per_row : ℕ
  labels_per_column : ℕ
  left_margin : ℚ
  top_margin : ℚ
  horizontal_gap : ℚ
  vertical_gap : ℚ
deriving DecidableEq

/-- The `avery5160` preset of `LABEL_FORMATS`. -/
def avery5160_format : SheetFormat :=
  { name := "Avery 5160 (30 labels)"
    label_width := 2.625 * inch
    label_height := 1 * inch
    labels_per_row := 3
    labels_per_column := 10
    left_margin := 0.1875 * inch
    top_margin := 0.5 * inch
    horizontal_gap := 0.125 * inch
    vertical_gap := 0 }

/-- The `avery5161` preset of `LABEL_FORMATS`. -/
def avery5161_format : SheetFormat :=
  { name := "Avery 5161 (20 labels)"
    label_width := 4 * inch
    label_height := 1 * inch
    labels_per_row := 2
    labels_per_column := 10
    left_margin := 0.15625 * inch
    top_margin := 0.5 * inch
    horizontal_gap := 0.1875 * inch
    vertical_gap := 0 }

/-- The `avery5163` preset of `LABEL_FORMATS`. -/
def avery5163_format : SheetFormat :=
  { name := "Avery 5163 (10 labels)"
    label_width := 4 * inch
    label_height := 2 * inch
    labels_per_row := 2
    labels_per_column := 5
    left_margin := 0.15625 * inch
    top_margin := 0.5 * inch
    horizontal_gap := 0.1875 * inch
    vertical_gap := 0 }

/-- The module-level preset dictionary `LABEL_FORMATS`. -/
def LABEL_FORMATS : List (String × SheetFormat) :=
  [("avery5160", avery5160_format),
   ("avery5161", avery5161_format),
   ("avery5163", avery5163_format)]

/-- State of one `AdvancedLabelGenerator` after `__init__` succeeded;
the eight geometry attributes copied from the format spec are kept
bundled in `fmt`. -/
structure AdvancedLabelGenerator where
  start_code : ℤ
  end_code : ℤ
  code_type : String
  pfx : String
  sfx : String
  fmt : SheetFormat
deriving DecidableEq

/-- `AdvancedLabelGenerator.__init__`: looks the format up in
`LABEL_FORMATS`, lower-cases the code type and stores the request; raises
`ValueError("Unknown label format: ...")` on an unknown format identifier. -/
def mk_generator (start_code end_code : ℤ)
    (code_type label_format pfx sfx : String) :
    Except String AdvancedLabelGenerator :=
  match LABEL_FORMATS.lookup label_format with
  | some format_spec =>
      .ok { start_code := start_code
            end_code := end_code
            code_type := code_type.toLower
            pfx := pfx
            sfx := sfx
            fmt := format_spec }
  | none => .error ("Unknown label format: " ++ label_format)

/-- `AdvancedLabelGenerator.format_code`: the Python f-string
`f"{self.prefix}{code_value}{self.suffix}"`. -/
def format_code (pfx sfx : String) (code_value : ℤ) : String :=
  pfx ++ toString code_value ++ sfx

/-- One drawing instruction issued to the document sink (ReportLab canvas). -/
inductive SinkEvent where
  | drawText (x y : ℚ) (s : String)
  | drawQr (x y size : ℚ) (s : String)
  | drawBarcode (x y barHeight barWidth : ℚ) (s : String)
  | showPage
deriving DecidableEq

/-- QR glyph side derived in `draw_label`:
`min(self.label_width * 0.7, self.label_height * 0.7)`. -/
def qr_size (f : SheetFormat) : ℚ :=
  min (f.label_width * 0.7) (f.label_height * 0.7)

/-- Linear-barcode drawable width derived in `draw_label`:
`self.label_width - 0.2 * inch`. -/
def barcode_width (f : SheetFormat) : ℚ :=
  f.label_width - 0.2 * inch

/-- `AdvancedLabelGenerator.draw_label`: emits the centred caption text and
then the glyph; the glyph provider is the `encodes` oracle and its failure
on the formatted string aborts with that string as the error value. -/
def draw_label (g : AdvancedLabelGenerator) (encodes : String → Bool)
    (x y : ℚ) (code_value : ℤ) : Except String (List SinkEvent) :=
  let formatted_code := format_code g.pfx g.sfx code_value
  let text_x := x + g.fmt.label_width / 2
  let text_y := y + g.fmt.label_height - 0.15 * inch
  let text_event := SinkEvent.drawText text_x text_y ("ID: " ++ formatted_code)
  if g.code_type == "qrcode" then
    let qr_x := x + (g.fmt.label_width - qr_size g.fmt) / 2
    let qr_y := y + 0.1 * inch
    if encodes formatted_code then
      .ok [text_event, SinkEvent.drawQr qr_x qr_y (qr_size g.fmt) formatted_code]
    else
      .error formatted_code
  else
    let barcode_height := g.fmt.label_height * 0.5
    let barcode_x := x + (g.fmt.label_width - barcode_width g.fmt) / 2
    let barcode_y := y + 0.2 * inch
    if encodes formatted_code then
      .ok [text_event,
           SinkEvent.drawBarcode barcode_x barcode_y (barcode_height * 0.8) 0.9
             formatted_code]
    else
      .error formatted_code

/-- Row computed in the `generate_pdf` loop:
`(label_count % (labels_per_row * labels_per_column)) // labels_per_row`. -/
def label_row (f : SheetFormat) (label_count : ℕ) : ℕ :=
  (label_count % (f.labels_per_row * f.labels_per_column)) / f.labels_per_row

/-- Column computed in the `generate_pdf` loop:
`label_count % labels_per_row`. -/
def label_col (f : SheetFormat) (label_count : ℕ) : ℕ :=
  label_count % f.labels_per_row

/-- `x = left_margin + col * (label_width + horizontal_gap)`. -/
def label_x (f : SheetFormat) (label_count : ℕ) : ℚ :=
  f.left_margin + (label_col f label_count : ℚ) * (f.label_width + f.horizontal_gap)

/-- `y = page_height - top_margin - (row+1)*label_height - row*vertical_gap`. -/
def label_y (f : SheetFormat) (page_height : ℚ) (label_count : ℕ) : ℚ :=
  page_height - f.top_margin - ((label_row f label_count : ℚ) + 1) * f.label_height
    - (label_row f label_count : ℚ) * f.vertical_gap

/-- The `for code in codes` loop body of `generate_pdf`, carrying
`label_count`; after each drawn label, when the incremented `label_count` is
a multiple of `labels_per_row * labels_per_column` a `showPage` page break is
emitted. -/
def compose_loop (g : AdvancedLabelGenerator) (encodes : String → Bool)
    (page_height : ℚ) : List ℤ → ℕ → Except String (List SinkEvent)
  | [], _ => .ok []
  | code :: rest, label_count =>
    let per_sheet := g.fmt.labels_per_row * g.fmt.labels_per_column
    let x := label_x g.fmt label_count
    let y := label_y g.fmt page_height label_count
    match draw_label g encodes x y code with
    | .error e => .error e
    | .ok evts =>
      match compose_loop g encodes page_height rest (label_count + 1) with
      | .error e => .error e
      | .ok rest_evts =>
        .ok (evts ++
          (if (label_count + 1) % per_sheet == 0 then [SinkEvent.showPage] else [])
          ++ rest_evts)

/-- Python `range(start_code, end_code + 1)` as a list. -/
def int_range (start_code end_code : ℤ) : List ℤ :=
  (List.range (end_code + 1 - start_code).toNat).map
    (fun i : ℕ => start_code + (i : ℤ))

/-- `AdvancedLabelGenerator.generate_pdf`: runs the drawing loop and returns
the emitted sink trace together with
`(len(codes), (len(codes) - 1) // per_sheet + 1)`; `//` is Python floor
division, `Int.fdiv`. -/
def generate_pdf (g : AdvancedLabelGenerator) (encodes : String → Bool)
    (page_size : ℚ × ℚ) : Except String (List SinkEvent × ℤ × ℤ) :=
  let page_height := page_size.2
  let codes := int_range g.start_code g.end_code
  match compose_loop g encodes page_height codes 0 with
  | .error e => .error e
  | .ok evts =>
      let per_sheet : ℤ := (g.fmt.labels_per_row * g.fmt.labels_per_column : ℕ)
      .ok (evts, (codes.length : ℤ),
        ((codes.length : ℤ) - 1).fdiv per_sheet + 1)

/-- The `/api/generate` flow of `main.py`: construct the generator (format
resolution happens here, before any drawing) and then generate. -/
def generate_labels (start_code end_code : ℤ)
    (code_type label_format pfx sfx : String)
    (encodes : String → Bool) (page_size : ℚ × ℚ) :
    Except String (List SinkEvent × ℤ × ℤ) :=
  match mk_generator start_code end_code code_type label_format pfx sfx with
  | .error e => .error e
  | .ok g => generate_pdf g encodes page_size

/-! Spec-side layout algorithm (§4.3 of the design document), kept separate
so the code's placement can be compared against it. -/

/-- Spec §4.3: `indexOnSheet = index mod perSheet`. -/
def spec_indexOnSheet (f : SheetFormat) (index : ℕ) : ℕ :=
  index % (f.labels_per_row * f.labels_per_column)

/-- Spec §4.3: `row = indexOnSheet div columnsPerSheet`. -/
def spec_row (f : SheetFormat) (index : ℕ) : ℕ :=
  spec_indexOnSheet f index / f.labels_per_row

/-- Spec §4.3: `col = indexOnSheet mod columnsPerSheet`. -/
def spec_col (f : SheetFormat) (index : ℕ) : ℕ :=
  spec_indexOnSheet f index % f.labels_per_row

/-- Spec §4.3: `x = leftMargin + col × (labelWidth + horizontalGap)`. -/
def spec_x (f : SheetFormat) (index : ℕ) : ℚ :=
  f.left_margin + (spec_col f index : ℚ) * (f.label_width + f.horizontal_gap)

/-- Spec §4.3: `y = pageHeight − topMargin − (row+1) × labelHeight − row × verticalGap`. -/
def spec_y (f : SheetFormat) (page_height : ℚ) (index : ℕ) : ℚ :=
  page_height - f.top_margin - ((spec_row f index : ℚ) + 1) * f.label_height
    - (spec_row f index : ℚ) * f.vertical_gap

/-- A simple sheet format with small integral dimensions, used to
instantiate general theorems at a concrete input. -/
def sample_format : SheetFormat :=
  { name := "sample"
    label_width := 2
    label_height := 1
    labels_per_row := 1
    labels_per_column := 1
    left_margin := 0
    top_margin := 0
    horizontal_gap := 0
    vertical_gap := 0 }

/-- A concrete generator state used to instantiate general theorems. -/
def sample_gen : AdvancedLabelGenerator :=
  { start_code := 1
    end_code := 1
    code_type := "barcode"
    pfx := "TEST-"
    sfx := ""
    fmt := sample_format }

/-- The generator produced by a successful `mk_generator`, used to
instantiate theorems whose hypothesis is a successful construction
(`code_type` is stored lower-cased, exactly as `__init__` does). -/
def resolved_gen (s e : ℤ) (ct : String) (f : SheetFormat)
    (pfx sfx : String) : AdvancedLabelGenerator :=
  { start_code := s, end_code := e, code_type := ct.toLower,
    pfx := pfx, sfx := sfx, fmt := f }

/-- C3: for every sheet format, page height and label index, the row, column,
x and y computed by the `generate_pdf` loop agree with the Layout Calculator
algorithm of spec §4.3 (`indexOnSheet = index mod perSheet`,
`row = indexOnSheet div columnsPerSheet`, `col = indexOnSheet mod
columnsPerSheet`, and the stated x/y formulas); in particular the code's
`col = index mod labels_per_row` equals the spec's
`indexOnSheet mod columnsPerSheet`. -/
theorem c3_theorem (f : SheetFormat) (page_height : ℚ) (index : ℕ) :
    label_row f index = spec_row f index ∧
    label_col f index = spec_col f index ∧
    label_x f index = spec_x f index ∧
    label_y f page_height index = spec_y f page_height index := by
  have hcol : label_col f index = spec_col f index := by
    unfold label_col spec_col spec_indexOnSheet
    exact (Nat.mod_mod_of_dvd index (dvd_mul_right _ _)).symm
  refine ⟨rfl, hcol, ?_, rfl⟩
  unfold label_x spec_x
  rw [hcol]

/-- C5: `format_code` is a pure total function returning exactly
`prefix ++ decimalString(rawValue) ++ suffix`, for every integer raw value
and all prefix/suffix strings; in particular
`format(42, "TEST-", "") = "TEST-42"` and `format(7, "", "-2024") = "7-2024"`. -/
theorem c5_theorem :
    (∀ (pfx sfx : String) (code_value : ℤ),
      format_code pfx sfx code_value = pfx ++ toString code_value ++ sfx) ∧
    format_code "TEST-" "" 42 = "TEST-42" ∧
    format_code "" "-2024" 7 = "7-2024" :=
  ⟨fun _ _ _ => rfl, rfl, rfl⟩

/-- C8: the glyph bounding size derived by `draw_label` is
`min(labelWidth, labelHeight) × 0.7` for a QR glyph (the code's
`min(labelWidth × 0.7, labelHeight × 0.7)` coincides with it for positive
dimensions) and `labelWidth − 0.2in` for the linear barcode's drawable
width, and neither exceeds the label's dimensions. -/
theorem c8_theorem (f : SheetFormat)
    (hw : 0 < f.label_width) (hh : 0 < f.label_height) :
    qr_size f = min f.label_width f.label_height * 0.7 ∧
    qr_size f ≤ f.label_width ∧ qr_size f ≤ f.label_height ∧
    barcode_width f = f.label_width - 0.2 * inch ∧
    barcode_width f ≤ f.label_width := by
  refine ⟨?_, ?_, ?_, rfl, ?_⟩
  · unfold qr_size
    rcases le_total f.label_width f.label_height with h | h
    · rw [min_eq_left (by nlinarith), min_eq_left h]
    · rw [min_eq_right (by nlinarith), min_eq_right h]
  · calc qr_size f ≤ f.label_width * 0.7 := min_le_left _ _
      _ ≤ f.label_width := by nlinarith
  · calc qr_size f ≤ f.label_height * 0.7 := min_le_right _ _
      _ ≤ f.label_height := by nlinarith
  · unfold barcode_width
    have h : (0 : ℚ) ≤ 0.2 * inch := by norm_num [inch]
    linarith

/-- Witness for C8 at a concrete format with positive dimensions. -/
theorem c8_witness :
    qr_size sample_format =
      min sample_format.label_width sample_format.label_height * 0.7 ∧
    qr_size sample_format ≤ sample_format.label_width ∧
    qr_size sample_format ≤ sample_format.label_height ∧
    barcode_width sample_format = sample_format.label_width - 0.2 * inch ∧
    barcode_width sample_format ≤ sample_format.label_width :=
  c8_theorem sample_format (by decide) (by decide)

/-- C9: whenever `draw_label` succeeds, the first instruction issued to the
document sink (for both glyph kinds) writes the literal string
`"ID: " ++ formattedCode` — not the formatted code alone — centred at
`x + labelWidth/2` and placed `0.15in` below the label's top edge. -/
theorem c9_theorem (g : AdvancedLabelGenerator) (encodes : String → Bool)
    (x y : ℚ) (code_value : ℤ) (evts : List SinkEvent)
    (h : draw_label g encodes x y code_value = .ok evts) :
    evts.head? = some (SinkEvent.drawText (x + g.fmt.label_width / 2)
      (y + g.fmt.label_height - 0.15 * inch)
      ("ID: " ++ format_code g.pfx g.sfx code_value)) := by
  unfold draw_label at h
  by_cases hq : (g.code_type == "qrcode") = true <;>
    by_cases he : encodes (format_code g.pfx g.sfx code_value) = true <;>
      simp only [hq, he, if_true, if_false, Bool.not_eq_true, if_pos, if_neg,
        Bool.false_eq_true, reduceIte] at h <;>
    cases h <;> rfl

/-- Witness for C9 on a concrete barcode label drawn at the origin. -/
theorem c9_witness :
    ∃ evts, draw_label sample_gen (fun _ => true) 0 0 42 = .ok evts ∧
      evts.head? = some (SinkEvent.drawText
        (0 + sample_gen.fmt.label_width / 2)
        (0 + sample_gen.fmt.label_height - 0.15 * inch)
        ("ID: " ++ format_code sample_gen.pfx sample_gen.sfx 42)) :=
  ⟨_, rfl, c9_theorem sample_gen (fun _ => true) 0 0 42 _ rfl⟩

/-- C6: resolving an unregistered format identifier fails with the
`Unknown label format` error naming the identifier, and the whole request
flow then produces that error with no drawing trace at all (the failure is
in `__init__`, before `generate_pdf` runs); the three registered
identifiers resolve to exactly their preset geometry (values in points). -/
theorem c6_theorem :
    (∀ label_format, LABEL_FORMATS.lookup label_format = none →
      ∀ (s e : ℤ) (ct pfx sfx : String) (encodes : String → Bool) (ps : ℚ × ℚ),
        generate_labels s e ct label_format pfx sfx encodes ps =
          .error ("Unknown label format: " ++ label_format)) ∧
    LABEL_FORMATS.lookup "avery9999" = none ∧
    LABEL_FORMATS.lookup "avery5160" = some
      { name := "Avery 5160 (30 labels)", label_width := 189, label_height := 72,
        labels_per_row := 3, labels_per_column := 10, left_margin := 13.5,
        top_margin := 36, horizontal_gap := 9, vertical_gap := 0 } ∧
    LABEL_FORMATS.lookup "avery5161" = some
      { name := "Avery 5161 (20 labels)", label_width := 288, label_height := 72,
        labels_per_row := 2, labels_per_column := 10, left_margin := 11.25,
        top_margin := 36, horizontal_gap := 13.5, vertical_gap := 0 } ∧
    LABEL_FORMATS.lookup "avery5163" = some
      { name := "Avery 5163 (10 labels)", label_width := 288, label_height := 144,
        labels_per_row := 2, labels_per_column := 5, left_margin := 11.25,
        top_margin := 36, horizontal_gap := 13.5, vertical_gap := 0 } := by
  refine ⟨?_, rfl, ?_, ?_, ?_⟩
  · intro fid hnone s e ct pfx sfx encodes ps
    unfold generate_labels mk_generator
    rw [hnone]
  · simp only [show LABEL_FORMATS.lookup "avery5160" = some avery5160_format from rfl,
      avery5160_format, Option.some.injEq, SheetFormat.mk.injEq]
    norm_num [inch]
  · simp only [show LABEL_FORMATS.lookup "avery5161" = some avery5161_format from rfl,
      avery5161_format, Option.some.injEq, SheetFormat.mk.injEq]
    norm_num [inch]
  · simp only [show LABEL_FORMATS.lookup "avery5163" = some avery5163_format from rfl,
      avery5163_format, Option.some.injEq, SheetFormat.mk.injEq]
    norm_num [inch]

/-- Witness for C6: the whole request flow on format `"avery9999"` fails
with the `Unknown label format` error (and hence emits no drawing trace). -/
theorem c6_witness :
    generate_labels 0 0 "barcode" "avery9999" "" "" (fun _ => true) letter =
      .error "Unknown label format: avery9999" :=
  c6_theorem.1 "avery9999" (by rfl) 0 0 "barcode" "" "" (fun _ => true) letter

/-- Counterexample to C4 as stated: on page size `a4` the placement of
index 2 on `avery5160` (rightmost column, within one sheet's capacity)
violates `x + labelWidth ≤ pageWidth`:
`x + labelWidth = 598.5 > 75600/127 ≈ 595.28`. -/
theorem c4_counterexample :
    2 < avery5160_format.labels_per_row * avery5160_format.labels_per_column ∧
    ¬ (label_x avery5160_format 2 + avery5160_format.label_width ≤ a4.1) := by
  refine ⟨by norm_num [avery5160_format], ?_⟩
  norm_num [label_x, label_col, avery5160_format, a4, inch]

/-- C4 as amended: for every registered preset and every index within one
sheet's capacity, the placement is contained in the `letter` page in both
axes; on `a4` the vertical containment also holds, and the horizontal
containment `x + labelWidth ≤ pageWidth` holds exactly for the labels not
in the rightmost column, while every rightmost-column label exceeds the
`a4` page width. -/
theorem c4_theorem (f : SheetFormat) (hf : f ∈ LABEL_FORMATS.map Prod.snd)
    (idx : ℕ) (hidx : idx < f.labels_per_row * f.labels_per_column) :
    (0 ≤ label_x f idx ∧ label_x f idx + f.label_width ≤ letter.1 ∧
     0 ≤ label_y f letter.2 idx ∧
     label_y f letter.2 idx + f.label_height ≤ letter.2) ∧
    (0 ≤ label_y f a4.2 idx ∧ label_y f a4.2 idx + f.label_height ≤ a4.2) ∧
    (label_col f idx + 1 < f.labels_per_row →
      label_x f idx + f.label_width ≤ a4.1) ∧
    (label_col f idx + 1 = f.labels_per_row →
      ¬ (label_x f idx + f.label_width ≤ a4.1)) := by
  simp only [LABEL_FORMATS, List.map_cons, List.map_nil, List.mem_cons,
    List.not_mem_nil, or_false] at hf
  rcases hf with rfl | rfl | rfl <;>
    [norm_num [avery5160_format] at hidx;
     norm_num [avery5161_format] at hidx;
     norm_num [avery5163_format] at hidx] <;>
    interval_cases idx <;>
    norm_num [label_x, label_y, label_col, label_row, avery5160_format,
      avery5161_format, avery5163_format, inch, letter, a4]

/-- Witness for C4 at preset `avery5160`, index 0, on both page sizes. -/
theorem c4_witness :
    (0 ≤ label_x avery5160_format 0 ∧
     label_x avery5160_format 0 + avery5160_format.label_width ≤ letter.1 ∧
     0 ≤ label_y avery5160_format letter.2 0 ∧
     label_y avery5160_format letter.2 0 + avery5160_format.label_height ≤
       letter.2) ∧
    (0 ≤ label_y avery5160_format a4.2 0 ∧
     label_y avery5160_format a4.2 0 + avery5160_format.label_height ≤ a4.2) ∧
    (label_col avery5160_format 0 + 1 < avery5160_format.labels_per_row →
      label_x avery5160_format 0 + avery5160_format.label_width ≤ a4.1) ∧
    (label_col avery5160_format 0 + 1 = avery5160_format.labels_per_row →
      ¬ (label_x avery5160_format 0 + avery5160_format.label_width ≤ a4.1)) :=
  c4_theorem avery5160_format (by simp [LABEL_FORMATS]) 0
    (by simp [avery5160_format])

/-- When the glyph provider accepts the formatted string, `draw_label`
succeeds and emits exactly two events, neither of which is a page break. -/
theorem draw_label_ok_shape (g : AdvancedLabelGenerator) (encodes : String → Bool)
    (x y : ℚ) (code_value : ℤ)
    (he : encodes (format_code g.pfx g.sfx code_value) = true) :
    ∃ l, draw_label g encodes x y code_value = .ok l ∧ l ≠ [] ∧
      l.count SinkEvent.showPage = 0 := by
  unfold draw_label
  by_cases hq : (g.code_type == "qrcode") = true <;>
    simp [hq, he, List.count_cons]

/-- When the glyph provider rejects the formatted string, `draw_label`
propagates the error carrying exactly that formatted string. -/
theorem draw_label_error_shape (g : AdvancedLabelGenerator) (encodes : String → Bool)
    (x y : ℚ) (code_value : ℤ)
    (he : encodes (format_code g.pfx g.sfx code_value) = false) :
    draw_label g encodes x y code_value =
      .error (format_code g.pfx g.sfx code_value) := by
  unfold draw_label
  by_cases hq : (g.code_type == "qrcode") = true <;> simp [hq, he]

/-- A successful `mk_generator` stores the requested range and one of the
three registered preset geometries. -/
theorem mk_generator_cases {s e : ℤ} {ct fid pfx sfx : String}
    {g : AdvancedLabelGenerator}
    (h : mk_generator s e ct fid pfx sfx = .ok g) :
    g.start_code = s ∧ g.end_code = e ∧
    (g.fmt = avery5160_format ∨ g.fmt = avery5161_format ∨
      g.fmt = avery5163_format) := by
  simp only [mk_generator, LABEL_FORMATS, List.lookup_cons, List.lookup_nil] at h
  cases h1 : fid == "avery5160" <;> rw [h1] at h
  · cases h2 : fid == "avery5161" <;> rw [h2] at h
    · cases h3 : fid == "avery5163" <;> rw [h3] at h
      · cases h
      · cases h
        exact ⟨rfl, rfl, Or.inr (Or.inr rfl)⟩
    · cases h
      exact ⟨rfl, rfl, Or.inr (Or.inl rfl)⟩
  · cases h
    exact ⟨rfl, rfl, Or.inl rfl⟩

/-- Invariant of the `generate_pdf` drawing loop with an always-succeeding
glyph provider, for every starting `label_count`: the loop succeeds, the
number of `showPage` breaks in its trace counts the multiples of
`per_sheet` crossed by the counter, and whenever the final counter value is
an exact multiple of `per_sheet`, the trace ends with a page break. -/
theorem compose_loop_ok (g : AdvancedLabelGenerator) (encodes : String → Bool)
    (henc : ∀ s, encodes s = true) (ph : ℚ) :
    ∀ (codes : List ℤ) (label_count : ℕ), ∃ evts,
      compose_loop g encodes ph codes label_count = .ok evts ∧
      evts.count SinkEvent.showPage =
        (label_count + codes.length) /
          (g.fmt.labels_per_row * g.fmt.labels_per_column)
          - label_count / (g.fmt.labels_per_row * g.fmt.labels_per_column) ∧
      (codes ≠ [] →
        (label_count + codes.length) %
          (g.fmt.labels_per_row * g.fmt.labels_per_column) = 0 →
        evts.getLast? = some SinkEvent.showPage) := by
  intro codes
  induction codes with
  | nil =>
      intro lc
      exact ⟨[], rfl, by simp, by simp⟩
  | cons c rest ih =>
      intro lc
      obtain ⟨l, hl, hlnil, hlcnt⟩ :=
        draw_label_ok_shape g encodes (label_x g.fmt lc) (label_y g.fmt ph lc) c
          (henc _)
      obtain ⟨revts, hre, hrcnt, hrlast⟩ := ih (lc + 1)
      refine ⟨l ++
        ((if (lc + 1) % (g.fmt.labels_per_row * g.fmt.labels_per_column) == 0
            then [SinkEvent.showPage] else []) ++ revts), ?_, ?_, ?_⟩
      · simp only [compose_loop, hl, hre, List.append_assoc]
      · rw [List.count_append, List.count_append, hlcnt, hrcnt]
        have hm1 : lc / (g.fmt.labels_per_row * g.fmt.labels_per_column) ≤
            (lc + 1) / (g.fmt.labels_per_row * g.fmt.labels_per_column) :=
          Nat.div_le_div_right (by omega)
        have hm2 : (lc + 1) / (g.fmt.labels_per_row * g.fmt.labels_per_column) ≤
            (lc + 1 + rest.length) /
              (g.fmt.labels_per_row * g.fmt.labels_per_column) :=
          Nat.div_le_div_right (by omega)
        have hsucc := Nat.succ_div lc (g.fmt.labels_per_row * g.fmt.labels_per_column)
        have hlen : lc + (rest.length + 1) = lc + 1 + rest.length := by omega
        rw [List.length_cons, hlen]
        by_cases hd : (g.fmt.labels_per_row * g.fmt.labels_per_column) ∣ (lc + 1)
        · obtain ⟨t, ht⟩ := hd
          have hmod : (lc + 1) % (g.fmt.labels_per_row * g.fmt.labels_per_column)
              = 0 := by rw [ht]; exact Nat.mul_mod_right _ _
          rw [if_pos (Dvd.intro t ht.symm)] at hsucc
          simp only [hmod, beq_self_eq_true, if_true, List.count_cons,
            List.count_nil, beq_self_eq_true]
          omega
        · have hmod : (lc + 1) % (g.fmt.labels_per_row * g.fmt.labels_per_column)
              ≠ 0 := fun hz => hd ((Nat.dvd_iff_mod_eq_zero ..).mpr hz)
          rw [if_neg hd] at hsucc
          rw [if_neg (by simpa using hmod)]
          simp only [List.count_nil]
          omega
      · intro _ hmod
        cases rest with
        | nil =>
            have hrev : revts = [] := by
              simpa [compose_loop] using hre.symm
            subst hrev
            simp only [List.length_cons, List.length_nil, Nat.zero_add] at hmod
            rw [if_pos (by simpa using hmod)]
            simp [List.getLast?_append]
        | cons c2 rest2 =>
            have hmod2 : ((lc + 1) + (c2 :: rest2).length) %
                (g.fmt.labels_per_row * g.fmt.labels_per_column) = 0 := by
              have : (lc + 1) + (c2 :: rest2).length =
                  lc + (c2 :: rest2).length.succ := by omega
              rw [this]
              simpa using hmod
            have hlast := hrlast (by simp) hmod2
            simp [List.getLast?_append, hlast]

/-- If the glyph provider rejects the formatted string of some code in the
list, the drawing loop aborts with an error carrying the formatted value of
a rejected code from the list (the first one), and never returns a trace. -/
theorem compose_loop_error (g : AdvancedLabelGenerator) (encodes : String → Bool)
    (ph : ℚ) :
    ∀ (codes : List ℤ) (label_count : ℕ) (c : ℤ), c ∈ codes →
      encodes (format_code g.pfx g.sfx c) = false →
      ∃ c₀, c₀ ∈ codes ∧ encodes (format_code g.pfx g.sfx c₀) = false ∧
        compose_loop g encodes ph codes label_count =
          .error (format_code g.pfx g.sfx c₀) := by
  intro codes
  induction codes with
  | nil => intro lc c hc; exact absurd hc (List.not_mem_nil c)
  | cons a rest ih =>
      intro lc c hc hfail
      by_cases ha : encodes (format_code g.pfx g.sfx a) = false
      · refine ⟨a, List.mem_cons_self a rest, ha, ?_⟩
        have hdraw := draw_label_error_shape g encodes
          (label_x g.fmt lc) (label_y g.fmt ph lc) a ha
        simp only [compose_loop, hdraw]
      · have ha' : encodes (format_code g.pfx g.sfx a) = true := by
          simpa [Bool.not_eq_false] using ha
        have hcr : c ∈ rest := by
          rcases List.mem_cons.mp hc with rfl | hr
          · rw [ha'] at hfail; cases hfail
          · exact hr
        obtain ⟨c₀, hc₀, hf₀, hloop⟩ := ih (lc + 1) c hcr hfail
        obtain ⟨l, hl, _, _⟩ := draw_label_ok_shape g encodes
          (label_x g.fmt lc) (label_y g.fmt ph lc) a ha'
        refine ⟨c₀, List.mem_cons_of_mem a hc₀, hf₀, ?_⟩
        simp only [compose_loop, hl, hloop]

/-- The returned page count `(n - 1) // perSheet + 1` equals
`⌈n / perSheet⌉` for every `n ≥ 1` and `perSheet ≥ 1`. -/
theorem total_pages_eq_ceil (n P : ℕ) (hn : 1 ≤ n) (hP : 0 < P) :
    ((n : ℤ) - 1).fdiv (P : ℤ) + 1 = ⌈(n : ℚ) / (P : ℚ)⌉ := by
  have hPQ : (0 : ℚ) < (P : ℚ) := by exact_mod_cast hP
  have h1 : ((n : ℤ) - 1) = ((n - 1 : ℕ) : ℤ) := by omega
  set q : ℕ := (n - 1) / P with hq
  rw [h1, Int.fdiv_eq_ediv _ (by positivity), ← Int.natCast_div, ← hq]
  symm
  rw [Int.ceil_eq_iff]
  refine ⟨?_, ?_⟩
  · have hz : ((((q : ℤ) + 1 : ℤ)) : ℚ) - 1 = (q : ℚ) := by push_cast; ring
    rw [hz, lt_div_iff₀ hPQ]
    have hle : q * P ≤ n - 1 := by
      rw [hq]; exact Nat.div_mul_le_self (n - 1) P
    exact_mod_cast Nat.lt_of_le_of_lt hle (by omega)
  · rw [div_le_iff₀ hPQ]
    have hlt : n - 1 < (q + 1) * P := by
      have hdm := Nat.div_add_mod (n - 1) P
      rw [← hq] at hdm
      have hm : (n - 1) % P < P := Nat.mod_lt _ hP
      have hexp : (q + 1) * P = P * q + P := by ring
      rw [hexp]
      omega
    have hle2 : n ≤ (q + 1) * P := by omega
    exact_mod_cast hle2

/-- Page count for an exact multiple: `(k*P - 1) // P + 1 = k`. -/
theorem pages_of_mul (k P : ℕ) (hk : 1 ≤ k) (hP : 0 < P) :
    (((k * P : ℕ) : ℤ) - 1).fdiv ((P : ℕ) : ℤ) + 1 = (k : ℤ) := by
  have hkP : 1 ≤ k * P := Nat.one_le_iff_ne_zero.mpr
    (Nat.mul_ne_zero (by omega) (by omega))
  rw [total_pages_eq_ceil (k * P) P hkP hP]
  have : ((k * P : ℕ) : ℚ) / (P : ℚ) = ((k : ℕ) : ℚ) := by
    push_cast
    exact mul_div_cancel_right₀ _ (by positivity)
  rw [this, Int.ceil_natCast]

/-- `generate_pdf` with an always-succeeding glyph provider: the trace, the
returned label and page counts, the number of emitted page breaks, and the
trailing-break property, all in terms of the code range length. -/
theorem generate_pdf_tt (g : AdvancedLabelGenerator) (ps : ℚ × ℚ) :
    ∃ evts, generate_pdf g (fun _ => true) ps =
        .ok (evts, ((int_range g.start_code g.end_code).length : ℤ),
          (((int_range g.start_code g.end_code).length : ℤ) - 1).fdiv
            ((g.fmt.labels_per_row * g.fmt.labels_per_column : ℕ) : ℤ) + 1) ∧
      evts.count SinkEvent.showPage =
        (int_range g.start_code g.end_code).length /
          (g.fmt.labels_per_row * g.fmt.labels_per_column) ∧
      ((int_range g.start_code g.end_code).length ≠ 0 →
        (int_range g.start_code g.end_code).length %
          (g.fmt.labels_per_row * g.fmt.labels_per_column) = 0 →
        evts.getLast? = some SinkEvent.showPage) := by
  obtain ⟨evts, hloop, hcnt, hlast⟩ := compose_loop_ok g (fun _ => true)
    (fun _ => rfl) ps.2 (int_range g.start_code g.end_code) 0
  refine ⟨evts, ?_, ?_, ?_⟩
  · simp only [generate_pdf, hloop]
  · simpa using hcnt
  · intro hne hmod
    exact hlast (by simpa [← List.length_pos_iff_ne_nil] using
      Nat.pos_of_ne_zero hne) (by simpa using hmod)

/-- Counterexample to C1 as stated: on `avery5163` (`perSheet = 10`) with the
exactly-divisible range 1..10 and a succeeding glyph provider, the composer
emits a page break after the final label even though no labels remain — the
trace of the successful run (10 labels, 1 reported page) ends with
`showPage`.  The trailing-blank-page suppression is the document sink's
(ReportLab `save`) behaviour, not the composer's. -/
theorem c1_counterexample :
    ∃ evts, generate_pdf
        { start_code := 1, end_code := 10, code_type := "barcode", pfx := "",
          sfx := "", fmt := avery5163_format } (fun _ => true) letter =
        .ok (evts, 10, 1) ∧
      evts.getLast? = some SinkEvent.showPage := by
  obtain ⟨evts, hgen, _, hlast⟩ := generate_pdf_tt
    { start_code := 1, end_code := 10, code_type := "barcode", pfx := "",
      sfx := "", fmt := avery5163_format } letter
  rw [show ((((int_range (1 : ℤ) 10).length : ℤ) - 1).fdiv
      ((avery5163_format.labels_per_row * avery5163_format.labels_per_column :
        ℕ) : ℤ) + 1) = 1 from by decide,
    show ((int_range (1 : ℤ) 10).length : ℤ) = 10 from by decide] at hgen
  exact ⟨evts, hgen, hlast (by decide) (by decide)⟩

/-- C1 as amended: for every request resolved by the constructor whose range
size is an exact multiple `k × perSheet` (`k ≥ 1`), the composer emits a
page break after each `perSheet`-th label drawn, *including after the final
label*: the trace contains exactly `k` page breaks, ends with a page break
(so no label content follows it and the document sink materialises no
trailing page), and the returned counts are `k × perSheet` labels and `k`
pages. -/
theorem c1_theorem (s e : ℤ) (ct fid pfx sfx : String)
    (g : AdvancedLabelGenerator) (ps : ℚ × ℚ) (k : ℕ)
    (hg : mk_generator s e ct fid pfx sfx = .ok g) (hk : 1 ≤ k)
    (hlen : (g.end_code + 1 - g.start_code).toNat =
      k * (g.fmt.labels_per_row * g.fmt.labels_per_column)) :
    ∃ evts, generate_pdf g (fun _ => true) ps =
        .ok (evts,
          ((k * (g.fmt.labels_per_row * g.fmt.labels_per_column) : ℕ) : ℤ),
          (k : ℤ)) ∧
      evts.count SinkEvent.showPage = k ∧
      evts.getLast? = some SinkEvent.showPage := by
  have hfmt := (mk_generator_cases hg).2.2
  have hP : 0 < g.fmt.labels_per_row * g.fmt.labels_per_column := by
    rcases hfmt with h | h | h <;> rw [h] <;> decide
  have hlen2 : (int_range g.start_code g.end_code).length =
      k * (g.fmt.labels_per_row * g.fmt.labels_per_column) := by
    simp only [int_range, List.length_map, List.length_range]
    exact hlen
  obtain ⟨evts, hgen, hcnt, hlast⟩ := generate_pdf_tt g ps
  have hpages := pages_of_mul k (g.fmt.labels_per_row * g.fmt.labels_per_column)
    hk hP
  rw [hlen2, hpages] at hgen
  refine ⟨evts, hgen, ?_, ?_⟩
  · rw [hlen2, Nat.mul_div_cancel _ hP] at hcnt
    exact hcnt
  · exact hlast
      (by rw [hlen2]; exact Nat.mul_ne_zero (by omega) (by omega))
      (by rw [hlen2]; exact Nat.mul_mod_left _ _)

/-- Witness for C1 (amended) at `avery5163`, `k = 1`, range 1..10. -/
theorem c1_witness :
    ∃ evts, generate_pdf (resolved_gen 1 10 "barcode" avery5163_format "" "")
        (fun _ => true) letter =
        .ok (evts,
          ((1 * ((resolved_gen 1 10 "barcode" avery5163_format "" "").fmt.labels_per_row *
            (resolved_gen 1 10 "barcode" avery5163_format "" "").fmt.labels_per_column) : ℕ) : ℤ),
          ((1 : ℕ) : ℤ)) ∧
      evts.count SinkEvent.showPage = 1 ∧
      evts.getLast? = some SinkEvent.showPage :=
  c1_theorem 1 10 "barcode" "avery5163" "" ""
    (resolved_gen 1 10 "barcode" avery5163_format "" "") letter 1
    (by rfl) (by decide) (by decide)

/-- C2: for every request resolved by the constructor with
`start_code ≤ end_code` and a succeeding glyph provider, `generate_pdf`
returns `totalLabels = end − start + 1` and
`totalPages = ⌈totalLabels / perSheet⌉` where
`perSheet = labels_per_row × labels_per_column` of the resolved format; in
particular on `avery5160` (`perSheet = 30`) a range of 10 gives 1 page, a
range of 30 gives 1 page, and a range of 31 gives 2 pages. -/
theorem c2_theorem :
    (∀ (s e : ℤ) (ct fid pfx sfx : String) (g : AdvancedLabelGenerator)
        (ps : ℚ × ℚ),
      mk_generator s e ct fid pfx sfx = .ok g → s ≤ e →
      ∃ evts, generate_pdf g (fun _ => true) ps =
        .ok (evts, e - s + 1,
          ⌈((e - s + 1 : ℤ) : ℚ) /
            ((g.fmt.labels_per_row * g.fmt.labels_per_column : ℕ) : ℚ)⌉)) ∧
    (∃ evts, generate_pdf (resolved_gen 1 10 "barcode" avery5160_format "TEST-" "")
        (fun _ => true) letter = .ok (evts, 10, 1)) ∧
    (∃ evts, generate_pdf (resolved_gen 1 30 "barcode" avery5160_format "TEST-" "")
        (fun _ => true) letter = .ok (evts, 30, 1)) ∧
    (∃ evts, generate_pdf (resolved_gen 1 31 "barcode" avery5160_format "TEST-" "")
        (fun _ => true) letter = .ok (evts, 31, 2)) := by
  have hgeneral : ∀ (s e : ℤ) (ct fid pfx sfx : String)
      (g : AdvancedLabelGenerator) (ps : ℚ × ℚ),
      mk_generator s e ct fid pfx sfx = .ok g → s ≤ e →
      ∃ evts, generate_pdf g (fun _ => true) ps =
        .ok (evts, e - s + 1,
          ⌈((e - s + 1 : ℤ) : ℚ) /
            ((g.fmt.labels_per_row * g.fmt.labels_per_column : ℕ) : ℚ)⌉) := by
    intro s e ct fid pfx sfx g ps hg hse
    obtain ⟨hs, he, hfmt⟩ := mk_generator_cases hg
    have hP : 0 < g.fmt.labels_per_row * g.fmt.labels_per_column := by
      rcases hfmt with h | h | h <;> rw [h] <;> decide
    have hn : ((int_range g.start_code g.end_code).length : ℤ) = e - s + 1 := by
      simp only [int_range, List.length_map, List.length_range, hs, he]
      omega
    have hn1 : 1 ≤ (int_range g.start_code g.end_code).length := by omega
    obtain ⟨evts, hgen, _, _⟩ := generate_pdf_tt g ps
    have hpages := total_pages_eq_ceil
      ((int_range g.start_code g.end_code).length)
      (g.fmt.labels_per_row * g.fmt.labels_per_column) hn1 hP
    rw [hpages] at hgen
    have hQ : (((int_range g.start_code g.end_code).length : ℕ) : ℚ) =
        ((e - s + 1 : ℤ) : ℚ) := by exact_mod_cast hn
    rw [hQ, hn] at hgen
    exact ⟨evts, hgen⟩
  refine ⟨hgeneral, ?_, ?_, ?_⟩
  · obtain ⟨evts, hg⟩ := hgeneral 1 10 "barcode" "avery5160" "TEST-" ""
      (resolved_gen 1 10 "barcode" avery5160_format "TEST-" "") letter
      (by rfl) (by decide)
    refine ⟨evts, ?_⟩
    rw [hg]
    norm_num [Int.ceil_eq_iff, resolved_gen, avery5160_format]
  · obtain ⟨evts, hg⟩ := hgeneral 1 30 "barcode" "avery5160" "TEST-" ""
      (resolved_gen 1 30 "barcode" avery5160_format "TEST-" "") letter
      (by rfl) (by decide)
    refine ⟨evts, ?_⟩
    rw [hg]
    norm_num [Int.ceil_eq_iff, resolved_gen, avery5160_format]
  · obtain ⟨evts, hg⟩ := hgeneral 1 31 "barcode" "avery5160" "TEST-" ""
      (resolved_gen 1 31 "barcode" avery5160_format "TEST-" "") letter
      (by rfl) (by decide)
    refine ⟨evts, ?_⟩
    rw [hg]
    norm_num [Int.ceil_eq_iff, resolved_gen, avery5160_format]

/-- Witness for C2: the general clause applied to the concrete request
1..10 on `avery5160` (with `ceil(10/30)` left in ceiling form). -/
theorem c2_witness :
    ∃ evts, generate_pdf (resolved_gen 1 10 "barcode" avery5160_format "TEST-" "")
        (fun _ => true) letter =
      .ok (evts, 10 - 1 + 1,
        ⌈((10 - 1 + 1 : ℤ) : ℚ) /
          (((resolved_gen 1 10 "barcode" avery5160_format "TEST-" "").fmt.labels_per_row *
            (resolved_gen 1 10 "barcode" avery5160_format "TEST-" "").fmt.labels_per_column :
            ℕ) : ℚ)⌉) :=
  c2_theorem.1 1 10 "barcode" "avery5160" "TEST-" ""
    (resolved_gen 1 10 "barcode" avery5160_format "TEST-" "") letter
    (by rfl) (by decide)

/-- C7: whenever the glyph provider fails on some identifier of the range,
`generate_pdf` aborts the whole generation with an error carrying the
offending formatted value of a failing identifier in the range: no
`GenerationResult` (and no trace) is produced, so labels after the failing
identifier are never drawn. -/
theorem c7_theorem (g : AdvancedLabelGenerator) (encodes : String → Bool)
    (ps : ℚ × ℚ) (c : ℤ)
    (hc : c ∈ int_range g.start_code g.end_code)
    (hfail : encodes (format_code g.pfx g.sfx c) = false) :
    ∃ c₀, c₀ ∈ int_range g.start_code g.end_code ∧
      encodes (format_code g.pfx g.sfx c₀) = false ∧
      generate_pdf g encodes ps = .error (format_code g.pfx g.sfx c₀) := by
  obtain ⟨c₀, h1, h2, h3⟩ := compose_loop_error g encodes ps.2
    (int_range g.start_code g.end_code) 0 c hc hfail
  exact ⟨c₀, h1, h2, by simp only [generate_pdf, h3]⟩

/-- Witness for C7: a provider rejecting everything fails the one-label
range 1..1. -/
theorem c7_witness :
    ∃ c₀, c₀ ∈ int_range sample_gen.start_code sample_gen.end_code ∧
      (fun _ => false : String → Bool) (format_code sample_gen.pfx sample_gen.sfx c₀) = false ∧
      generate_pdf sample_gen (fun _ => false) letter =
        .error (format_code sample_gen.pfx sample_gen.sfx c₀) :=
  c7_theorem sample_gen (fun _ => false) letter 1 (by decide) rfl

/-- C10: when the constructor-produced generator is run with
`end_code < start_code` (a range the surrounding validation layer would
reject), `generate_pdf` raises no error: it draws nothing, emits no page
break, and returns `totalLabels = 0` and `totalPages = 0` (Python's floor
division gives `(0 - 1) // perSheet + 1 = -1 + 1 = 0`). -/
theorem c10_theorem (s e : ℤ) (ct fid pfx sfx : String)
    (g : AdvancedLabelGenerator) (encodes : String → Bool) (ps : ℚ × ℚ)
    (hg : mk_generator s e ct fid pfx sfx = .ok g)
    (hlt : g.end_code < g.start_code) :
    generate_pdf g encodes ps = .ok ([], 0, 0) := by
  have hfmt := (mk_generator_cases hg).2.2
  have hn : (g.end_code + 1 - g.start_code).toNat = 0 := by omega
  have hcodes : int_range g.start_code g.end_code = [] := by
    simp [int_range, hn]
  simp only [generate_pdf, hcodes, compose_loop, List.length_nil,
    Nat.cast_zero, Except.ok.injEq, Prod.mk.injEq]
  refine ⟨trivial, trivial, ?_⟩
  rcases hfmt with h | h | h <;> rw [h] <;> decide

/-- Witness for C10 at the concrete empty range 5..4 on `avery5160`. -/
theorem c10_witness :
    generate_pdf (resolved_gen 5 4 "barcode" avery5160_format "" "")
      (fun _ => true) letter = .ok ([], 0, 0) :=
  c10_theorem 5 4 "barcode" "avery5160" "" ""
    (resolved_gen 5 4 "barcode" avery5160_format "" "")
    (fun _ => true) letter (by rfl) (by decide)
